import Mathlib

/- Shallow embedding of src/ik_pick_and_place_demo.py (class PickAndPlace):
   pose-to-joint-angle resolution (ik_request), guarded motion execution
   (_guarded_move_to_joint_position, gripper_open, gripper_close,
   move_to_start), and the pick/place phase sequencing (_approach,
   _servo_to_pose, _retract, pick, place).

   Modelling conventions:
   - Real-valued fields (positions, angles, durations) are rationals.
   - ROS / baxter_interface side effects (motion commands, gripper actuation,
     log output, prints, sleeps, the construction-time service wait) are an
     explicit event trace, in program order.
   - A Python exception escaping a function is the `some e` value of an
     `Option PyExc` component paired with the trace emitted before the raise.
   - The external IK service call is a parameter: each call's outcome is
     either a raised transport exception (caught by ik_request) or a
     response value. -/

namespace PickAndPlaceDemo

/-- Cartesian position, geometry_msgs Point (x, y, z). -/
structure Point3 where
  x : Rat
  y : Rat
  z : Rat
deriving DecidableEq, Inhabited

/-- Orientation quaternion, geometry_msgs Quaternion (x, y, z, w). -/
structure Quat4 where
  x : Rat
  y : Rat
  z : Rat
  w : Rat
deriving DecidableEq, Inhabited

/-- geometry_msgs Pose: position plus orientation. -/
structure Pose where
  position : Point3
  orientation : Quat4
deriving DecidableEq, Inhabited

/-- Endpoint pose as returned by baxter_interface Limb.endpoint_pose():
a position and an orientation, read field by field in _retract. -/
structure Endpoint where
  position : Point3
  orientation : Quat4
deriving DecidableEq, Inhabited

/-- One entry of SolvePositionIKResponse.joints (sensor_msgs JointState):
parallel sequences of joint names and joint positions. -/
structure JointState where
  name : List String
  position : List Rat
deriving DecidableEq, Inhabited

/-- The SolvePositionIK service response fields read by ik_request:
result_type is the byte sequence of seed/validity indicators (one byte per
requested pose), joints the per-pose joint states. -/
structure IKResponse where
  result_type : List Nat
  joints : List JointState
deriving DecidableEq, Inhabited

/-- Outcome of the synchronous self._iksvc(ikreq) call: either the call
raises (rospy.ServiceException or rospy.ROSException, both caught inside
ik_request) or it returns a response. -/
inductive ServiceOutcome where
  | raises (msg : String)
  | returns (resp : IKResponse)
deriving DecidableEq

/-- Python exceptions that can escape the modelled functions. -/
inductive PyExc where
  | rosExc (msg : String)
  | indexError
  | attributeError (missing : String)
deriving DecidableEq

/-- Value returned by ik_request: the source returns the boolean False on
both failure paths and a dict (joint name to angle, insertion ordered) on
success; both feed the truthiness test of the guarded move. -/
inductive PyRet where
  | pyFalse
  | pyDict (m : List (String × Rat))
deriving DecidableEq

/-- Result of running ik_request: a normal return or an uncaught exception. -/
inductive IkRet where
  | ret (v : PyRet)
  | exc (e : PyExc)
deriving DecidableEq

/-- Observable events, in program order. moveCmd is
Limb.move_to_joint_positions, gripOpen / gripClose the gripper actuation,
sleep a rospy.sleep, waitForService the construction-time
rospy.wait_for_service with its timeout, logErr a rospy.logerr line,
stdout a print, stdoutSolution the verbose dump of the solved dict. -/
inductive Event where
  | stdout (msg : String)
  | stdoutSolution (m : List (String × Rat))
  | logErr (msg : String)
  | moveCmd (angles : List (String × Rat))
  | gripOpen
  | gripClose
  | sleep (secs : Rat)
  | waitForService (timeout : Rat)
deriving DecidableEq

/-- SolvePositionIKResponse.RESULT_INVALID from the baxter_core_msgs service
definition (external to this repository); only its role as "the invalid
code" the first result byte is compared against matters here. -/
def RESULT_INVALID : Nat := 0

/-- SolvePositionIKRequest.SEED_USER (baxter_core_msgs). -/
def SEED_USER : Nat := 1

/-- SolvePositionIKRequest.SEED_CURRENT (baxter_core_msgs). -/
def SEED_CURRENT : Nat := 2

/-- SolvePositionIKRequest.SEED_NS_MAP (baxter_core_msgs). -/
def SEED_NS_MAP : Nat := 3

/-- struct.unpack of a uint8[] byte string into a tuple of ints: the
identity on the List Nat representation of resp.result_type. -/
def struct_unpack_uint8 (bs : List Nat) : List Nat := bs

/-- The seed-type description lookup in ik_request, a dict .get with
default 'None'. -/
def seedStrOf (seed : Nat) : String :=
  if seed = SEED_USER then "User Provided Seed"
  else if seed = SEED_CURRENT then "Current Joint Angles"
  else if seed = SEED_NS_MAP then "Nullspace Setpoints"
  else "None"

/-- One Python dict insertion: insertion ordered, updating the value in
place on a key collision. Building a dict from a pair sequence folds this. -/
def dictInsert (d : List (String × Rat)) (k : String) (v : Rat) : List (String × Rat) :=
  if k ∈ d.map Prod.fst then
    d.map fun p => if p.1 = k then (k, v) else p
  else d ++ [(k, v)]

/-- Python dict(pairs) built from an ordered list of key/value pairs, as in
dict(zip(resp.joints[0].name, resp.joints[0].position)). -/
def dictOfPairs (ps : List (String × Rat)) : List (String × Rat) :=
  ps.foldl (fun d p => dictInsert d p.1 p.2) []

/-- PickAndPlace.ik_request. The service call outcome is the parameter; the
request construction (header, pose_stamp append) has no observable effect
beyond determining that outcome. Faithful to the source:
a caught service/transport exception logs and returns False; an empty
result_type makes resp_seeds[0] raise IndexError; a first byte equal to
RESULT_INVALID logs and returns False without touching resp.joints; a valid
first byte reads resp.joints[0] (IndexError if absent) and returns
dict(zip(name, position)), printing diagnostics when verbose. -/
def ik_request (outcome : ServiceOutcome) (verbose : Bool) : List Event × IkRet :=
  match outcome with
  | ServiceOutcome.raises e =>
      ([Event.logErr ("Service call failed: " ++ e)], IkRet.ret PyRet.pyFalse)
  | ServiceOutcome.returns resp =>
      match struct_unpack_uint8 resp.result_type with
      | [] => ([], IkRet.exc PyExc.indexError)
      | s0 :: _ =>
        if s0 ≠ RESULT_INVALID then
          let pre : List Event :=
            if verbose then
              [Event.stdout ("IK Solution SUCCESS - Valid Joint Solution Found from Seed Type: "
                ++ seedStrOf s0)]
            else []
          match resp.joints with
          | [] => (pre, IkRet.exc PyExc.indexError)
          | j0 :: _ =>
            let limb_joints := dictOfPairs (List.zip j0.name j0.position)
            (pre ++ (if verbose then [Event.stdoutSolution limb_joints] else []),
              IkRet.ret (PyRet.pyDict limb_joints))
        else
          ([Event.logErr "INVALID POSE - No Valid Joint Solution Found."],
            IkRet.ret PyRet.pyFalse)

/-- Python truthiness of the values flowing into the guarded move: False is
falsy, a dict is truthy when non-empty. -/
def pyTruthy : PyRet → Bool
  | PyRet.pyFalse => false
  | PyRet.pyDict m => !m.isEmpty

/-- Underlying dict of a PyRet (empty for False); only read under a
truthiness check, where the value is a non-empty dict. -/
def PyRet.dictVal : PyRet → List (String × Rat)
  | PyRet.pyFalse => []
  | PyRet.pyDict m => m

/-- The rospy.logerr text of the guarded move refusal. -/
def noAnglesMsg : String :=
  "No Joint Angles provided for move_to_joint_positions. Staying put."

/-- PickAndPlace._guarded_move_to_joint_position: if the argument is truthy,
command the arm to those joint values; otherwise log an error and stay put. -/
def _guarded_move_to_joint_position (joint_angles : PyRet) : List Event :=
  if pyTruthy joint_angles then [Event.moveCmd joint_angles.dictVal]
  else [Event.logErr noAnglesMsg]

/-- PickAndPlace.gripper_open: actuate, then sleep one second. -/
def gripper_open : List Event := [Event.gripOpen, Event.sleep 1]

/-- PickAndPlace.gripper_close: actuate, then sleep one second. -/
def gripper_close : List Event := [Event.gripClose, Event.sleep 1]

/-- The pose-value computation of _approach: the deepcopy of the input with
its position's z raised by the hover distance, all other components equal. -/
def zBump (pose : Pose) (hover : Rat) : Pose :=
  { pose with position := { pose.position with z := pose.position.z + hover } }

/-- The retract pose built field by field in _retract from the current
endpoint pose: same x, y and orientation, z raised by the hover distance. -/
def retractPoseOf (hover : Rat) (current : Endpoint) : Pose :=
  { position :=
      { x := current.position.x
        y := current.position.y
        z := current.position.z + hover }
    orientation := current.orientation }

/-- Shared tail of each servo phase: pass the ik_request result to the
guarded move, or let an uncaught exception escape first. -/
def finishMove (r : List Event × IkRet) : List Event × Option PyExc :=
  match r with
  | (tr, IkRet.exc e) => (tr, some e)
  | (tr, IkRet.ret v) => (tr ++ _guarded_move_to_joint_position v, none)

/-- PickAndPlace._approach: solve the hover-offset copy of the pose and
guarded-move to the solution. -/
def _approach (service : Pose → ServiceOutcome) (verbose : Bool) (hover : Rat)
    (pose : Pose) : List Event × Option PyExc :=
  finishMove (ik_request (service (zBump pose hover)) verbose)

/-- PickAndPlace._servo_to_pose: solve the pose itself and guarded-move. -/
def _servo_to_pose (service : Pose → ServiceOutcome) (verbose : Bool)
    (pose : Pose) : List Event × Option PyExc :=
  finishMove (ik_request (service pose) verbose)

/-- PickAndPlace._retract: read the current endpoint pose (a parameter
here), build the hover-offset retract pose, solve it and guarded-move. -/
def _retract (service : Pose → ServiceOutcome) (verbose : Bool) (hover : Rat)
    (current : Endpoint) : List Event × Option PyExc :=
  finishMove (ik_request (service (retractPoseOf hover current)) verbose)

/-- An infallible step: a trace and no exception. -/
def ok (tr : List Event) : List Event × Option PyExc := (tr, none)

/-- Python sequencing of two steps: the second runs only when the first
did not raise; an escaped exception carries the trace emitted so far. -/
def andThen (a b : List Event × Option PyExc) : List Event × Option PyExc :=
  match a with
  | (tr, some e) => (tr, some e)
  | (tr, none) => (tr ++ b.1, b.2)

/-- PickAndPlace.pick: open the gripper, approach, servo to the pose, close
the gripper, retract. -/
def pick (service : Pose → ServiceOutcome) (verbose : Bool) (hover : Rat)
    (endpoint : Endpoint) (pose : Pose) : List Event × Option PyExc :=
  andThen (ok gripper_open)
    (andThen (_approach service verbose hover pose)
      (andThen (_servo_to_pose service verbose pose)
        (andThen (ok gripper_close)
          (_retract service verbose hover endpoint))))

/-- PickAndPlace.place: approach, servo to the pose, open the gripper,
retract. -/
def place (service : Pose → ServiceOutcome) (verbose : Bool) (hover : Rat)
    (endpoint : Endpoint) (pose : Pose) : List Event × Option PyExc :=
  andThen (_approach service verbose hover pose)
    (andThen (_servo_to_pose service verbose pose)
      (andThen (ok gripper_open)
        (_retract service verbose hover endpoint)))

/-- Python truthiness of the optional start_angles argument: None and an
empty dict are falsy, a non-empty dict truthy. -/
def pyTruthyOpt : Option (List (String × Rat)) → Bool
  | none => false
  | some m => !m.isEmpty

/-- PickAndPlace.move_to_start. The source tests `if not start_angles:` and
in that branch evaluates dict(zip(self._joint_names, [0]*7)); the class
never assigns the attribute _joint_names anywhere, so that lookup raises
AttributeError after the initial print. A truthy argument flows unchanged
into the guarded move, then gripper_open and a one second sleep. -/
def move_to_start (limb_name : String)
    (start_angles : Option (List (String × Rat))) : List Event × Option PyExc :=
  let hdr : List Event :=
    [Event.stdout ("Moving the " ++ limb_name ++ " arm to start pose...")]
  if pyTruthyOpt start_angles then
    (hdr ++ _guarded_move_to_joint_position (PyRet.pyDict (start_angles.getD []))
        ++ gripper_open ++ [Event.sleep 1, Event.stdout "Running. Ctrl-c to quit"],
      none)
  else
    (hdr, some (PyExc.attributeError "_joint_names"))

/-- Outcome of the construction-time rospy.wait_for_service(ns, 5.0): the
service is confirmed within the bound, or the wait raises ROSException. -/
inductive WaitOutcome where
  | available
  | timeout (msg : String)
deriving DecidableEq

/-- PickAndPlace.__init__ after the handle assignments: one bounded wait on
the IK service; on timeout the ROSException propagates out of the
constructor, otherwise the robot-state prints and enable follow. -/
def pickAndPlaceInit (w : WaitOutcome) : List Event × Option PyExc :=
  match w with
  | WaitOutcome.available =>
      ([Event.waitForService 5, Event.stdout "Getting robot state... ",
        Event.stdout "Enabling robot... "], none)
  | WaitOutcome.timeout m =>
      ([Event.waitForService 5], some (PyExc.rosExc m))

/-- Events that are hardware/simulation commands: motion commands and
gripper actuation. -/
def Event.isCommand : Event → Bool
  | Event.moveCmd _ => true
  | Event.gripOpen => true
  | Event.gripClose => true
  | _ => false

/-- Error-level log events. -/
def Event.isLogErr : Event → Bool
  | Event.logErr _ => true
  | _ => false

/-- Service-wait events. -/
def Event.isWait : Event → Bool
  | Event.waitForService _ => true
  | _ => false

/-- Last commanded arm configuration after a trace, starting from a given
configuration: only moveCmd events change the arm state. -/
def armStateAfter (start : List (String × Rat)) (tr : List Event) : List (String × Rat) :=
  tr.foldl (fun s e => match e with | Event.moveCmd m => m | _ => s) start

/-- A solver-failure outcome in the sense of the spec: the service call
raises, or the response's first result byte is the invalid code. -/
def isFailureOutcome : ServiceOutcome → Bool
  | ServiceOutcome.raises _ => true
  | ServiceOutcome.returns r => r.result_type.head? = some RESULT_INVALID

/-- Outcomes respecting the service interface (a result byte for the one
requested pose, and joint data present when the result is valid); under
these, ik_request returns normally. -/
def wellFormedOutcome : ServiceOutcome → Bool
  | ServiceOutcome.raises _ => true
  | ServiceOutcome.returns r =>
      match r.result_type with
      | [] => false
      | s0 :: _ => s0 = RESULT_INVALID || !r.joints.isEmpty

/-- Heap model of the Python object aliasing in the pose-manipulation
prefix of _approach: a heap of pose objects addressed by index,
`approach = copy.deepcopy(pose)` allocating a fresh copy at the end, then
`approach.position.z += hover` mutating the copy in place. Returns the heap
after both statements and the address of the approach object. -/
def approachAlloc (h : List Pose) (pose_addr : Nat) (hover : Rat) : List Pose × Nat :=
  let copied := h ++ [h.getD pose_addr default]
  let a := h.length
  (copied.set a (zBump (copied.getD a default) hover), a)

/-- A concrete block pose in the style of the demo's main function. -/
def demoPose : Pose :=
  { position := { x := 3 / 4, y := -1 / 10, z := -129 / 1000 }
    orientation := { x := 0, y := 1, z := 0, w := 0 } }

/-- A concrete endpoint pose used to instantiate the retract phase. -/
def demoEndpoint : Endpoint :=
  { position := { x := 1 / 2, y := 0, z := 0 }
    orientation := { x := 0, y := 1, z := 0, w := 0 } }

/-- A mocked service whose every call raises a transport exception. -/
def failService : Pose → ServiceOutcome :=
  fun _ => ServiceOutcome.raises "mock"

/-- A mocked service whose every call returns one valid joint pair. -/
def okService : Pose → ServiceOutcome :=
  fun _ => ServiceOutcome.returns
    { result_type := [SEED_USER]
      joints := [{ name := ["left_s0"], position := [1] }] }

/-- On any solver-failure outcome (caught transport exception or invalid
first result byte) ik_request returns the boolean False normally. -/
theorem ik_request_fail (o : ServiceOutcome) (v : Bool)
    (h : isFailureOutcome o = true) :
    (ik_request o v).2 = IkRet.ret PyRet.pyFalse := by
  cases o with
  | raises e => rfl
  | returns resp =>
      obtain ⟨rt, js⟩ := resp
      cases rt with
      | nil => simp [isFailureOutcome] at h
      | cons s0 rest =>
          simp [isFailureOutcome] at h
          simp [ik_request, struct_unpack_uint8, h]

/-- ik_request itself issues no hardware or gripper command on any outcome. -/
theorem ik_request_no_command (o : ServiceOutcome) (v : Bool) :
    ((ik_request o v).1).filter Event.isCommand = [] := by
  cases o with
  | raises e => simp [ik_request, Event.isCommand]
  | returns resp =>
      obtain ⟨rt, js⟩ := resp
      cases rt with
      | nil => simp [ik_request, struct_unpack_uint8]
      | cons s0 rest =>
          by_cases h0 : s0 = RESULT_INVALID
          · simp [ik_request, struct_unpack_uint8, h0, Event.isCommand]
          · cases js with
            | nil =>
                simp only [ik_request, struct_unpack_uint8]
                rw [if_pos h0]
                cases v <;> simp [Event.isCommand]
            | cons j0 rest2 =>
                simp only [ik_request, struct_unpack_uint8]
                rw [if_pos h0]
                cases v <;> simp [Event.isCommand]

/-- On a well-formed service outcome ik_request returns normally. -/
theorem ik_request_wf (o : ServiceOutcome) (v : Bool)
    (h : wellFormedOutcome o = true) :
    ∃ val, (ik_request o v).2 = IkRet.ret val := by
  cases o with
  | raises e => exact ⟨PyRet.pyFalse, rfl⟩
  | returns resp =>
      obtain ⟨rt, js⟩ := resp
      cases rt with
      | nil => simp [wellFormedOutcome] at h
      | cons s0 rest =>
          by_cases h0 : s0 = RESULT_INVALID
          · exact ⟨PyRet.pyFalse, by simp [ik_request, struct_unpack_uint8, h0]⟩
          · simp [wellFormedOutcome, h0] at h
            cases js with
            | nil => simp at h
            | cons j0 rest2 =>
                refine ⟨PyRet.pyDict (dictOfPairs (List.zip j0.name j0.position)), ?_⟩
                simp only [ik_request, struct_unpack_uint8]
                rw [if_pos h0]

/-- finishMove on a normal ik_request result appends the guarded move. -/
theorem finishMove_ret (r : List Event × IkRet) (val : PyRet)
    (h : r.2 = IkRet.ret val) :
    finishMove r = (r.1 ++ _guarded_move_to_joint_position val, none) := by
  obtain ⟨tr, ir⟩ := r
  cases ir with
  | ret w => simp only [] at h; simp at h; subst h; rfl
  | exc e => simp at h

/-- Sequencing after a step that did not raise concatenates the traces. -/
theorem andThen_none (a b : List Event × Option PyExc) (h : a.2 = none) :
    andThen a b = (a.1 ++ b.1, b.2) := by
  obtain ⟨tr, x⟩ := a
  cases x with
  | none => rfl
  | some e => simp at h

/-- The guarded move on the False sentinel only logs. -/
theorem guarded_move_false :
    _guarded_move_to_joint_position PyRet.pyFalse = [Event.logErr noAnglesMsg] := rfl

/-- The guarded move on a non-empty dict issues exactly that command. -/
theorem guarded_move_ne (m : List (String × Rat)) (h : m ≠ []) :
    _guarded_move_to_joint_position (PyRet.pyDict m) = [Event.moveCmd m] := by
  simp [_guarded_move_to_joint_position, pyTruthy, PyRet.dictVal, h]

/-- C1 counterexample: on a raised service exception, ik_request returns the
boolean False, which is not the empty JointAngles mapping the claim
promises — the claim as stated fails at this input. -/
theorem c1_counterexample :
    (ik_request (ServiceOutcome.raises "boom") true).2 = IkRet.ret PyRet.pyFalse ∧
    IkRet.ret PyRet.pyFalse ≠ IkRet.ret (PyRet.pyDict []) :=
  ⟨rfl, by decide⟩

/-- C1 (amended): for every pose, when the solver fails — the service call
raises, or the response's validity indicator signals invalid — ik_request
returns the boolean False (a falsy sentinel the guarded move treats exactly
like an empty mapping) as a normal return value, propagating no exception. -/
theorem c1_solver_failure_returns_false (o : ServiceOutcome) (v : Bool)
    (h : isFailureOutcome o = true) :
    (ik_request o v).2 = IkRet.ret PyRet.pyFalse :=
  ik_request_fail o v h

/-- C1 witness: the amended claim at a concrete transport failure. -/
theorem c1_witness :
    isFailureOutcome (ServiceOutcome.raises "timed out") = true ∧
    (ik_request (ServiceOutcome.raises "timed out") false).2 = IkRet.ret PyRet.pyFalse :=
  ⟨rfl, c1_solver_failure_returns_false (ServiceOutcome.raises "timed out") false rfl⟩

/-- C2: for every response whose first result byte is the invalid code,
ik_request fails (logs and returns False); the result is literally
independent of the joint-name and joint-position sequences, so no joint
data from such a response is ever returned. -/
theorem c2_invalid_first_byte (rest : List Nat) (js : List JointState) (v : Bool) :
    ik_request (ServiceOutcome.returns
        { result_type := RESULT_INVALID :: rest, joints := js }) v =
      ([Event.logErr "INVALID POSE - No Valid Joint Solution Found."],
        IkRet.ret PyRet.pyFalse) := by
  simp [ik_request, struct_unpack_uint8]

/-- C3: the guarded move on an empty mapping issues no hardware/simulation
command, emits exactly one error-level log entry, and leaves the arm state
unchanged; on a non-empty mapping it issues exactly one motion command with
those joint values and nothing else. -/
theorem c3_guarded_move (m : List (String × Rat)) :
    (m = [] →
      _guarded_move_to_joint_position (PyRet.pyDict m) = [Event.logErr noAnglesMsg] ∧
      (_guarded_move_to_joint_position (PyRet.pyDict m)).filter Event.isCommand = [] ∧
      (_guarded_move_to_joint_position (PyRet.pyDict m)).filter Event.isLogErr
        = [Event.logErr noAnglesMsg] ∧
      ∀ s0 : List (String × Rat),
        armStateAfter s0 (_guarded_move_to_joint_position (PyRet.pyDict m)) = s0) ∧
    (m ≠ [] →
      _guarded_move_to_joint_position (PyRet.pyDict m) = [Event.moveCmd m]) := by
  constructor
  · rintro rfl
    exact ⟨rfl, rfl, rfl, fun s0 => rfl⟩
  · intro h
    exact guarded_move_ne m h

/-- C3 witness: both branches at concrete mappings. -/
theorem c3_witness :
    _guarded_move_to_joint_position (PyRet.pyDict []) = [Event.logErr noAnglesMsg] ∧
    _guarded_move_to_joint_position (PyRet.pyDict [("left_s0", 1)])
      = [Event.moveCmd [("left_s0", 1)]] :=
  ⟨((c3_guarded_move []).1 rfl).1, (c3_guarded_move [("left_s0", 1)]).2 (by simp)⟩

/-- A dict insertion grows the dict by at most one entry. -/
theorem dictInsert_length_le (d : List (String × Rat)) (k : String) (v : Rat) :
    (dictInsert d k v).length ≤ d.length + 1 := by
  unfold dictInsert
  split
  · simp
  · simp

/-- Inserting a fresh key appends it. -/
theorem dictInsert_fresh (d : List (String × Rat)) (k : String) (v : Rat)
    (h : k ∉ d.map Prod.fst) :
    dictInsert d k v = d ++ [(k, v)] := by
  unfold dictInsert
  rw [if_neg h]

/-- Building a dict from pairs adds at most one entry per pair. -/
theorem foldl_dictInsert_length_le (ps : List (String × Rat)) (d : List (String × Rat)) :
    (ps.foldl (fun d p => dictInsert d p.1 p.2) d).length ≤ d.length + ps.length := by
  induction ps generalizing d with
  | nil => simp
  | cons p ps ih =>
      have h1 := ih (dictInsert d p.1 p.2)
      have h2 := dictInsert_length_le d p.1 p.2
      simp only [List.foldl_cons, List.length_cons]
      omega

/-- Building a dict from pairs whose keys are distinct and disjoint from the
accumulator's keys adds exactly one entry per pair and appends the keys. -/
theorem foldl_dictInsert_nodup (ps : List (String × Rat)) (d : List (String × Rat))
    (hnd : (ps.map Prod.fst).Nodup)
    (hdisj : ∀ k ∈ ps.map Prod.fst, k ∉ d.map Prod.fst) :
    (ps.foldl (fun d p => dictInsert d p.1 p.2) d).length = d.length + ps.length ∧
    (ps.foldl (fun d p => dictInsert d p.1 p.2) d).map Prod.fst
      = d.map Prod.fst ++ ps.map Prod.fst := by
  induction ps generalizing d with
  | nil => simp
  | cons p ps ih =>
      rw [List.map_cons, List.nodup_cons] at hnd
      have hk : p.1 ∉ d.map Prod.fst := hdisj p.1 (by simp)
      have hins := dictInsert_fresh d p.1 p.2 hk
      have hdisj2 : ∀ k ∈ ps.map Prod.fst, k ∉ (dictInsert d p.1 p.2).map Prod.fst := by
        intro k hkmem
        rw [hins]
        simp only [List.map_append, List.map_cons, List.map_nil, List.mem_append,
          List.mem_singleton]
        rintro (hkd | hkp)
        · exact hdisj k (by simp [hkmem]) hkd
        · exact hnd.1 (hkp ▸ hkmem)
      obtain ⟨hlen, hkeys⟩ := ih (dictInsert d p.1 p.2) hnd.2 hdisj2
      constructor
      · simp only [List.foldl_cons]
        rw [hlen, hins]
        simp only [List.length_append, List.length_cons, List.length_nil]
        omega
      · simp only [List.foldl_cons]
        rw [hkeys, hins]
        simp

/-- The dict built from a pair list has at most one entry per pair. -/
theorem dictOfPairs_length_le (ps : List (String × Rat)) :
    (dictOfPairs ps).length ≤ ps.length := by
  have h := foldl_dictInsert_length_le ps []
  simpa [dictOfPairs] using h

/-- With pairwise distinct keys, the dict keeps every pair. -/
theorem dictOfPairs_length_of_nodup (ps : List (String × Rat))
    (hnd : (ps.map Prod.fst).Nodup) :
    (dictOfPairs ps).length = ps.length := by
  have h := (foldl_dictInsert_nodup ps [] hnd (by simp)).1
  simpa [dictOfPairs] using h

/-- C4 counterexample: a valid response carrying a single joint pair makes
ik_request return a one-entry mapping — a partial mapping with between 1
and 6 entries, which the claim says is never returned. -/
theorem c4_counterexample :
    (ik_request (ServiceOutcome.returns
        { result_type := [1], joints := [{ name := ["left_s0"], position := [1] }] })
        false).2
      = IkRet.ret (PyRet.pyDict [("left_s0", 1)]) ∧
    [("left_s0", (1 : Rat))].length = 1 ∧ (1 : Nat) ≤ 6 :=
  ⟨rfl, rfl, by omega⟩

/-- C4 (amended): a successful ik_request result is the dict of the zipped
name/position pairs of the response's first joint state: it has at most
min(names, positions) entries, and exactly 7 entries precisely when the
response supplies 7 distinct names with 7 positions; responses with fewer
pairs yield partial mappings, and failures return False, so full population
is not enforced by the code but inherited from the service response. -/
theorem c4_solution_shape (s0 : Nat) (rest : List Nat) (j0 : JointState)
    (js : List JointState) (v : Bool) (hvalid : s0 ≠ RESULT_INVALID) :
    (ik_request (ServiceOutcome.returns
        { result_type := s0 :: rest, joints := j0 :: js }) v).2
      = IkRet.ret (PyRet.pyDict (dictOfPairs (List.zip j0.name j0.position))) ∧
    (dictOfPairs (List.zip j0.name j0.position)).length
      ≤ min j0.name.length j0.position.length ∧
    (j0.name.Nodup → j0.name.length = 7 → j0.position.length = 7 →
      (dictOfPairs (List.zip j0.name j0.position)).length = 7) := by
  refine ⟨?_, ?_, ?_⟩
  · simp only [ik_request, struct_unpack_uint8]
    rw [if_pos hvalid]
  · have h := dictOfPairs_length_le (List.zip j0.name j0.position)
    have hz : (List.zip j0.name j0.position).length
        = min j0.name.length j0.position.length := List.length_zip ..
    omega
  · intro hnd h7n h7p
    have hle : j0.name.length ≤ j0.position.length := by omega
    have hfst : (List.zip j0.name j0.position).map Prod.fst = j0.name :=
      List.map_fst_zip j0.name j0.position hle
    have hznd : ((List.zip j0.name j0.position).map Prod.fst).Nodup := by
      rw [hfst]; exact hnd
    have hz : (List.zip j0.name j0.position).length
        = min j0.name.length j0.position.length := List.length_zip ..
    have hmain := dictOfPairs_length_of_nodup (List.zip j0.name j0.position) hznd
    omega

/-- C4 witness: the amended claim at a concrete valid 7-joint response. -/
theorem c4_witness :
    ((1 : Nat) ≠ RESULT_INVALID) ∧
    ((ik_request (ServiceOutcome.returns
        { result_type := [1],
          joints := [{ name := ["left_s0", "left_s1", "left_e0", "left_e1",
                               "left_w0", "left_w1", "left_w2"],
                       position := [1, 2, 3, 4, 5, 6, 7] }] }) false).2
      = IkRet.ret (PyRet.pyDict (dictOfPairs (List.zip
          ["left_s0", "left_s1", "left_e0", "left_e1", "left_w0", "left_w1", "left_w2"]
          [1, 2, 3, 4, 5, 6, 7]))) ∧
    (dictOfPairs (List.zip
        ["left_s0", "left_s1", "left_e0", "left_e1", "left_w0", "left_w1", "left_w2"]
        [(1 : Rat), 2, 3, 4, 5, 6, 7])).length
      ≤ min 7 7 ∧
    (["left_s0", "left_s1", "left_e0", "left_e1", "left_w0", "left_w1", "left_w2"].Nodup →
      (7 : Nat) = 7 → (7 : Nat) = 7 →
      (dictOfPairs (List.zip
          ["left_s0", "left_s1", "left_e0", "left_e1", "left_w0", "left_w1", "left_w2"]
          [(1 : Rat), 2, 3, 4, 5, 6, 7])).length = 7)) :=
  ⟨by decide, c4_solution_shape 1 []
    { name := ["left_s0", "left_s1", "left_e0", "left_e1", "left_w0", "left_w1", "left_w2"],
      position := [1, 2, 3, 4, 5, 6, 7] } [] false (by decide)⟩

/-- C5: when the solve of the descend (target) pose fails, pick still runs
every phase in order — gripper-open, the approach phase, a descend phase
containing no motion command, gripper-close, the retract phase — raising
nothing (no abort, no retry): the failed solve only turns the descend move
into a logged no-op. -/
theorem c5_pick_descend_failure (service : Pose → ServiceOutcome) (v : Bool)
    (hover : Rat) (endpoint : Endpoint) (pose : Pose)
    (hfail : isFailureOutcome (service pose) = true)
    (hwa : wellFormedOutcome (service (zBump pose hover)) = true)
    (hwr : wellFormedOutcome (service (retractPoseOf hover endpoint)) = true) :
    (pick service v hover endpoint pose).2 = none ∧
    ∃ tr, _servo_to_pose service v pose = (tr, none) ∧
      tr.filter Event.isCommand = [] ∧
      (pick service v hover endpoint pose).1 =
        gripper_open ++ (_approach service v hover pose).1 ++ tr ++
          gripper_close ++ (_retract service v hover endpoint).1 := by
  obtain ⟨va, hva⟩ := ik_request_wf (service (zBump pose hover)) v hwa
  obtain ⟨vr, hvr⟩ := ik_request_wf (service (retractPoseOf hover endpoint)) v hwr
  have hS2 := ik_request_fail (service pose) v hfail
  have hA : _approach service v hover pose
      = ((ik_request (service (zBump pose hover)) v).1
          ++ _guarded_move_to_joint_position va, none) :=
    finishMove_ret _ va hva
  have hS : _servo_to_pose service v pose
      = ((ik_request (service pose) v).1 ++ [Event.logErr noAnglesMsg], none) := by
    have h := finishMove_ret (ik_request (service pose) v) PyRet.pyFalse hS2
    rw [guarded_move_false] at h
    exact h
  have hR : _retract service v hover endpoint
      = ((ik_request (service (retractPoseOf hover endpoint)) v).1
          ++ _guarded_move_to_joint_position vr, none) :=
    finishMove_ret _ vr hvr
  have hpick : pick service v hover endpoint pose
      = (gripper_open ++ (((ik_request (service (zBump pose hover)) v).1
            ++ _guarded_move_to_joint_position va)
          ++ (((ik_request (service pose) v).1 ++ [Event.logErr noAnglesMsg])
          ++ (gripper_close ++ ((ik_request (service (retractPoseOf hover endpoint)) v).1
            ++ _guarded_move_to_joint_position vr)))), none) := by
    unfold pick
    rw [hA, hS, hR]
    simp only [andThen, ok]
  refine ⟨by rw [hpick], (ik_request (service pose) v).1 ++ [Event.logErr noAnglesMsg],
    hS, ?_, ?_⟩
  · rw [List.filter_append, ik_request_no_command]
    simp [Event.isCommand]
  · rw [hpick, hA, hR]
    simp [List.append_assoc]

/-- C5 witness: a mocked all-failing service on a concrete pose. -/
theorem c5_witness :
    isFailureOutcome (failService demoPose) = true ∧
    wellFormedOutcome (failService (zBump demoPose (3 / 20))) = true ∧
    wellFormedOutcome (failService (retractPoseOf (3 / 20) demoEndpoint)) = true ∧
    ((pick failService false (3 / 20) demoEndpoint demoPose).2 = none ∧
      ∃ tr, _servo_to_pose failService false demoPose = (tr, none) ∧
        tr.filter Event.isCommand = [] ∧
        (pick failService false (3 / 20) demoEndpoint demoPose).1 =
          gripper_open ++ (_approach failService false (3 / 20) demoPose).1 ++ tr ++
            gripper_close ++ (_retract failService false (3 / 20) demoEndpoint).1) :=
  ⟨rfl, rfl, rfl,
    c5_pick_descend_failure failService false (3 / 20) demoEndpoint demoPose rfl rfl rfl⟩

/-- C6: when all three solves succeed with non-empty solutions, place emits
exactly the command sequence move(approach), move(descend), open-gripper,
move(retract), in that order and nothing else — in particular no gripper
command before the approach move, unlike pick. -/
theorem c6_place_command_order (service : Pose → ServiceOutcome) (v : Bool)
    (hover : Rat) (endpoint : Endpoint) (pose : Pose)
    (ma md mr : List (String × Rat))
    (ha : (ik_request (service (zBump pose hover)) v).2
      = IkRet.ret (PyRet.pyDict ma)) (hane : ma ≠ [])
    (hd : (ik_request (service pose) v).2
      = IkRet.ret (PyRet.pyDict md)) (hdne : md ≠ [])
    (hr : (ik_request (service (retractPoseOf hover endpoint)) v).2
      = IkRet.ret (PyRet.pyDict mr)) (hrne : mr ≠ []) :
    (place service v hover endpoint pose).2 = none ∧
    (place service v hover endpoint pose).1.filter Event.isCommand =
      [Event.moveCmd ma, Event.moveCmd md, Event.gripOpen, Event.moveCmd mr] := by
  have hA : _approach service v hover pose
      = ((ik_request (service (zBump pose hover)) v).1 ++ [Event.moveCmd ma], none) := by
    have h := finishMove_ret (ik_request (service (zBump pose hover)) v)
      (PyRet.pyDict ma) ha
    rw [guarded_move_ne ma hane] at h
    exact h
  have hS : _servo_to_pose service v pose
      = ((ik_request (service pose) v).1 ++ [Event.moveCmd md], none) := by
    have h := finishMove_ret (ik_request (service pose) v) (PyRet.pyDict md) hd
    rw [guarded_move_ne md hdne] at h
    exact h
  have hR : _retract service v hover endpoint
      = ((ik_request (service (retractPoseOf hover endpoint)) v).1
          ++ [Event.moveCmd mr], none) := by
    have h := finishMove_ret (ik_request (service (retractPoseOf hover endpoint)) v)
      (PyRet.pyDict mr) hr
    rw [guarded_move_ne mr hrne] at h
    exact h
  have hplace : place service v hover endpoint pose
      = (((ik_request (service (zBump pose hover)) v).1 ++ [Event.moveCmd ma])
          ++ (((ik_request (service pose) v).1 ++ [Event.moveCmd md])
          ++ (gripper_open ++ ((ik_request (service (retractPoseOf hover endpoint)) v).1
            ++ [Event.moveCmd mr]))), none) := by
    unfold place
    rw [hA, hS, hR]
    simp only [andThen, ok]
  refine ⟨by rw [hplace], ?_⟩
  rw [hplace]
  simp only [List.filter_append, ik_request_no_command]
  simp [Event.isCommand, gripper_open]

/-- C6 witness: a mocked always-valid service on a concrete pose. -/
theorem c6_witness :
    ((ik_request (okService (zBump demoPose (3 / 20))) false).2
      = IkRet.ret (PyRet.pyDict [("left_s0", 1)])) ∧
    ([("left_s0", (1 : Rat))] ≠ []) ∧
    ((ik_request (okService demoPose) false).2
      = IkRet.ret (PyRet.pyDict [("left_s0", 1)])) ∧
    ((ik_request (okService (retractPoseOf (3 / 20) demoEndpoint)) false).2
      = IkRet.ret (PyRet.pyDict [("left_s0", 1)])) ∧
    ((place okService false (3 / 20) demoEndpoint demoPose).2 = none ∧
      (place okService false (3 / 20) demoEndpoint demoPose).1.filter Event.isCommand =
        [Event.moveCmd [("left_s0", 1)], Event.moveCmd [("left_s0", 1)],
          Event.gripOpen, Event.moveCmd [("left_s0", 1)]]) :=
  ⟨rfl, by simp, rfl, rfl,
    c6_place_command_order okService false (3 / 20) demoEndpoint demoPose
      [("left_s0", 1)] [("left_s0", 1)] [("left_s0", 1)]
      rfl (by simp) rfl (by simp) rfl (by simp)⟩

/-- Setting the freshly appended cell of a heap rewrites just that cell. -/
theorem set_concat_length {α : Type} (l : List α) (a b : α) :
    (l ++ [a]).set l.length b = l ++ [b] := by
  induction l with
  | nil => rfl
  | cons x t ih =>
      show x :: (t ++ [a]).set t.length b = x :: (t ++ [b])
      rw [ih]

/-- Reading the freshly appended cell of a heap returns it. -/
theorem getD_concat_length {α : Type} (l : List α) (a d : α) :
    (l ++ [a]).getD l.length d = a := by
  induction l with
  | nil => rfl
  | cons x t ih =>
      show (t ++ [a]).getD t.length d = a
      exact ih

/-- C7: evaluating move_to_start at the failing input. With no start
configuration the default branch reads the never-assigned attribute
_joint_names and raises AttributeError after the initial print — no motion,
no gripper action, no ready signal — instead of moving to the all-zero
configuration; with a provided non-empty configuration it moves to exactly
that configuration, opens the gripper and pauses one second before the
ready print, as claimed. -/
theorem c7_move_to_start_bug :
    move_to_start "left" none
      = ([Event.stdout "Moving the left arm to start pose..."],
          some (PyExc.attributeError "_joint_names")) ∧
    move_to_start "left" (some [("left_s0", 1)])
      = ([Event.stdout "Moving the left arm to start pose...",
          Event.moveCmd [("left_s0", 1)], Event.gripOpen, Event.sleep 1,
          Event.sleep 1, Event.stdout "Running. Ctrl-c to quit"], none) :=
  ⟨rfl, rfl⟩

/-- C8: the approach phase solves exactly the target pose with its z raised
by the hover distance and every other component identical (the approach
phase is the descend servo applied to that offset pose), and, in the heap
model of the deepcopy-then-mutate prefix, the caller's pose object is left
unchanged while the offset lands on the fresh copy. -/
theorem c8_approach_offset (h : List Pose) (i : Nat) (hover : Rat)
    (hi : i < h.length) (service : Pose → ServiceOutcome) (v : Bool) (pose : Pose) :
    ((approachAlloc h i hover).1.getD i default = h.getD i default) ∧
    ((approachAlloc h i hover).1.getD (approachAlloc h i hover).2 default
      = zBump (h.getD i default) hover) ∧
    (zBump pose hover).position.x = pose.position.x ∧
    (zBump pose hover).position.y = pose.position.y ∧
    (zBump pose hover).position.z = pose.position.z + hover ∧
    (zBump pose hover).orientation = pose.orientation ∧
    _approach service v hover pose = _servo_to_pose service v (zBump pose hover) := by
  have hread : (h ++ [h.getD i default]).getD h.length default = h.getD i default :=
    getD_concat_length h (h.getD i default) default
  have hheap : (approachAlloc h i hover).1 = h ++ [zBump (h.getD i default) hover] := by
    show (h ++ [h.getD i default]).set h.length
        (zBump ((h ++ [h.getD i default]).getD h.length default) hover)
      = h ++ [zBump (h.getD i default) hover]
    rw [hread, set_concat_length]
  refine ⟨?_, ?_, rfl, rfl, rfl, rfl, rfl⟩
  · rw [hheap]
    exact List.getD_append h [zBump (h.getD i default) hover] default i hi
  · show (approachAlloc h i hover).1.getD h.length default
      = zBump (h.getD i default) hover
    rw [hheap]
    exact getD_concat_length h (zBump (h.getD i default) hover) default

/-- C8 witness: the heap model and phase equality at a concrete heap. -/
theorem c8_witness :
    (0 : Nat) < [demoPose].length ∧
    (((approachAlloc [demoPose] 0 (3 / 20)).1.getD 0 default
        = [demoPose].getD 0 default) ∧
      ((approachAlloc [demoPose] 0 (3 / 20)).1.getD
          (approachAlloc [demoPose] 0 (3 / 20)).2 default
        = zBump ([demoPose].getD 0 default) (3 / 20)) ∧
      (zBump demoPose (3 / 20)).position.x = demoPose.position.x ∧
      (zBump demoPose (3 / 20)).position.y = demoPose.position.y ∧
      (zBump demoPose (3 / 20)).position.z = demoPose.position.z + 3 / 20 ∧
      (zBump demoPose (3 / 20)).orientation = demoPose.orientation ∧
      _approach failService false (3 / 20) demoPose
        = _servo_to_pose failService false (zBump demoPose (3 / 20))) :=
  ⟨by decide, c8_approach_offset [demoPose] 0 (3 / 20) (by decide) failService false demoPose⟩

/-- C9: construction performs exactly one availability wait, bounded by 5
seconds; construction completes without exception exactly when the service
is confirmed within the bound, a timeout's ROSException propagating out of
the constructor; and after construction a solver failure (transport
exception or invalid response) is recovered locally as a normal False
return, not an exception. -/
theorem c9_construction_gate (w : WaitOutcome) (m : String) (o : ServiceOutcome)
    (v : Bool) (hfail : isFailureOutcome o = true) :
    (pickAndPlaceInit w).1.filter Event.isWait = [Event.waitForService 5] ∧
    ((pickAndPlaceInit w).2 = none ↔ w = WaitOutcome.available) ∧
    (pickAndPlaceInit (WaitOutcome.timeout m)).2 = some (PyExc.rosExc m) ∧
    (ik_request o v).2 = IkRet.ret PyRet.pyFalse := by
  refine ⟨?_, ?_, rfl, ik_request_fail o v hfail⟩
  · cases w <;> simp [pickAndPlaceInit, Event.isWait]
  · cases w <;> simp [pickAndPlaceInit]

/-- C9 witness: both construction outcomes and a concrete failure. -/
theorem c9_witness :
    isFailureOutcome (ServiceOutcome.raises "conn") = true ∧
    ((pickAndPlaceInit WaitOutcome.available).1.filter Event.isWait
        = [Event.waitForService 5] ∧
      ((pickAndPlaceInit WaitOutcome.available).2 = none
        ↔ WaitOutcome.available = WaitOutcome.available) ∧
      (pickAndPlaceInit (WaitOutcome.timeout "timed out")).2
        = some (PyExc.rosExc "timed out") ∧
      (ik_request (ServiceOutcome.raises "conn") false).2 = IkRet.ret PyRet.pyFalse) :=
  ⟨rfl, c9_construction_gate WaitOutcome.available "timed out"
    (ServiceOutcome.raises "conn") false rfl⟩

/-- C10: move_to_start tests truthiness, not None — an explicit empty
mapping takes exactly the default branch taken with no argument (here: the
same AttributeError on the never-assigned _joint_names), and the guarded
move's refusal path is never reached from move_to_start: its trace holds no
error log. -/
theorem c10_truthiness_empty_mapping :
    move_to_start "left" (some []) = move_to_start "left" none ∧
    (move_to_start "left" (some [])).2 = some (PyExc.attributeError "_joint_names") ∧
    (move_to_start "left" (some [])).1.filter Event.isLogErr = [] :=
  ⟨rfl, rfl, rfl⟩

end PickAndPlaceDemo
